import Mathlib

set_option maxRecDepth 8000

/-!
Shallow embedding of the Financial Research AI Agent service core:
the keyword classifier (`app/services/categorizer.py`), the request
validation and response schemas (`app/schemas/analyze.py`), the
`/api/v1/analyze` route handler (`app/api/analyze.py`), the validation
error handler and the `/health` route (`app/main.py`).

Strings are modelled as Lean `String`; Python `str.lower` and the
`x in q` substring test are modelled at the character-list level
(`strLower`, `strContainsSub`) since every keyword in the source is
ASCII.  HTTP status codes are `Nat`; JSON bodies are Lean structures.
-/

/-- Python substring test `needle in haystack` on character lists:
true iff `needle` occurs contiguously in the list. -/
def listInfix (needle : List Char) : List Char → Bool
  | [] => needle.isEmpty
  | c :: rest => needle.isPrefixOf (c :: rest) || listInfix needle rest

/-- Python `needle in haystack` for strings. -/
def strContainsSub (haystack needle : String) : Bool :=
  listInfix needle.data haystack.data

/-- Python `query.lower()` (ASCII case folding, which covers every
keyword appearing in the source). -/
def strLower (s : String) : String :=
  String.mk (s.data.map Char.toLower)

/-- Stock keyword list from `categorize_query` in
`app/services/categorizer.py`. -/
def stockKeywords : List String :=
  ["price", "pe ratio", "dividend", "volume", "chart", "high", "low", "market cap"]

/-- News keyword list from `categorize_query`. -/
def newsKeywords : List String :=
  ["news", "headline", "happened", "event", "latest", "update", "report"]

/-- Portfolio keyword list from `categorize_query`. -/
def portfolioKeywords : List String :=
  ["portfolio", "holding", "bought", "sold", "buy", "sell", "balance", "account", "transaction", "position"]

/-- Body of the `try` block of `categorize_query`: lowercase the query
once, then test the three keyword lists in order, falling through to
`"general"`. -/
def classifyKeywords (query : String) : String :=
  let q := strLower query
  if stockKeywords.any (fun x => strContainsSub q x) then "stock"
  else if newsKeywords.any (fun x => strContainsSub q x) then "news"
  else if portfolioKeywords.any (fun x => strContainsSub q x) then "portfolio"
  else "general"

/-- The `except Exception` handler of `categorize_query`: a normal
result is passed through, any raised exception is logged and converted
to `"general"`. -/
def handleClassification : Except String String → String
  | Except.ok c => c
  | Except.error _ => "general"

/-- Embedding of `categorize_query` (`app/services/categorizer.py`):
the `try` body — which in the current code performs no failing
operation — wrapped by the exception handler. -/
def categorize_query (query : String) : String :=
  handleClassification (Except.ok (classifyKeywords query))

/-- The query matches some stock keyword (first branch condition of
`classifyKeywords`). -/
def matchesStock (query : String) : Bool :=
  stockKeywords.any (fun x => strContainsSub (strLower query) x)

/-- The query matches some news keyword. -/
def matchesNews (query : String) : Bool :=
  newsKeywords.any (fun x => strContainsSub (strLower query) x)

/-- The query matches some portfolio keyword. -/
def matchesPortfolio (query : String) : Bool :=
  portfolioKeywords.any (fun x => strContainsSub (strLower query) x)

/-- One pydantic validation failure for the `question` field of
`AnalyzeRequest` (`app/schemas/analyze.py`): the field is required,
with `min_length=3` and `max_length=1000`. -/
inductive ValidationIssue
  | missing
  | tooShort
  | tooLong
deriving Repr, DecidableEq

/-- Pydantic validation of the request body's `question` field: the
raw body is `none` when the key is absent, `some s` when present; the
result lists one entry per violated constraint. -/
def validateQuestion : Option String → List ValidationIssue
  | none => [ValidationIssue.missing]
  | some s =>
      (if s.length < 3 then [ValidationIssue.tooShort] else []) ++
      (if s.length > 1000 then [ValidationIssue.tooLong] else [])

/-- `AnalyzeRequest` after successful validation. -/
structure AnalyzeRequest where
  question : String
deriving Repr, DecidableEq

/-- `AnalyzeResponse` (`app/schemas/analyze.py`): `data` models the
optional free-form dict, `confidence` the optional float score (a
rational stands in for the float; the handler only ever produces
`none` for it). -/
structure AnalyzeResponse where
  category : String
  summary : String
  data : Option (List (String × String))
  confidence : Option Rat
deriving Repr, DecidableEq

/-- Body of the `analyze` route handler (`app/api/analyze.py`): a stub
returning a constant envelope that echoes the question; no service is
invoked. -/
def analyze (payload : AnalyzeRequest) : AnalyzeResponse :=
  { category := "general"
    summary := "[STUB] Analysis pipeline not yet connected."
    data := some [("question", payload.question)]
    confidence := none }

/-- JSON body produced by `validation_exception_handler` in
`app/main.py`. -/
structure ErrorBody where
  error : String
  detail : List ValidationIssue
deriving Repr, DecidableEq

/-- HTTP outcome of a POST to `/api/v1/analyze`: status code plus
either the success envelope or the structured error body. -/
inductive AnalyzeHttpResult
  | success (code : Nat) (body : AnalyzeResponse)
  | failure (code : Nat) (body : ErrorBody)
deriving Repr, DecidableEq

/-- Status code of an HTTP outcome. -/
def statusOf : AnalyzeHttpResult → Nat
  | AnalyzeHttpResult.success code _ => code
  | AnalyzeHttpResult.failure code _ => code

/-- Category field of a success envelope, `none` on failure. -/
def responseCategory : AnalyzeHttpResult → Option String
  | AnalyzeHttpResult.success _ body => some body.category
  | AnalyzeHttpResult.failure _ _ => none

/-- Embedding of `validation_exception_handler` (`app/main.py`): a 422
response whose body carries the itemized violations. -/
def validation_exception_handler (issues : List ValidationIssue) : AnalyzeHttpResult :=
  AnalyzeHttpResult.failure 422 { error := "validation_error", detail := issues }

/-- Full POST `/api/v1/analyze` route: FastAPI validates the body
against `AnalyzeRequest` before the handler body runs; on failure the
registered exception handler builds the 422 response.  The second
component records every query passed to `categorize_query` during the
request — the handler body is a stub and makes no such call, so the
trace is always empty. -/
def analyzeRoute (body : Option String) : AnalyzeHttpResult × List String :=
  match body with
  | none => (validation_exception_handler (validateQuestion none), [])
  | some q =>
      match validateQuestion (some q) with
      | [] => (AnalyzeHttpResult.success 200 (analyze { question := q }), [])
      | issues => (validation_exception_handler issues, [])

/-- Application settings (`app/core/config.py`). -/
structure Settings where
  app_name : String
  debug : Bool
  log_level : String
deriving Repr, DecidableEq

/-- Default settings values from `app/core/config.py`. -/
def defaultSettings : Settings :=
  { app_name := "Financial Research AI", debug := false, log_level := "INFO" }

/-- `HealthResponse` schema (`app/schemas/analyze.py`). -/
structure HealthResponse where
  status : String
  app : String
deriving Repr, DecidableEq

/-- Body of the `health_check` handler in `app/main.py`. -/
def health_check (s : Settings) : HealthResponse :=
  { status := "ok", app := s.app_name }

/-- Full GET `/health` route: status code plus body. -/
def healthRoute (s : Settings) : Nat × HealthResponse :=
  (200, health_check s)

/-- Unfolding of `classifyKeywords` through the three match
predicates. -/
theorem classifyKeywords_def (query : String) :
    classifyKeywords query =
      if matchesStock query then "stock"
      else if matchesNews query then "news"
      else if matchesPortfolio query then "portfolio"
      else "general" := rfl

/-- The exception handler passes normal results through. -/
theorem handleClassification_ok (c : String) :
    handleClassification (Except.ok c) = c := rfl

/-- `categorize_query` equals the `try` body on the current code. -/
theorem categorize_query_eq_classify (q : String) :
    categorize_query q = classifyKeywords q := rfl

/-- Claim C2: for every input string, `categorize_query` returns exactly one
of the four values "stock", "news", "portfolio", "general"; the exception
handler converts any internal fault to "general", and the Lean function's
totality embodies the never-raises contract. -/
theorem categorize_query_closure (q : String) :
    (categorize_query q = "stock" ∨ categorize_query q = "news" ∨
     categorize_query q = "portfolio" ∨ categorize_query q = "general") ∧
    (∀ e : String, handleClassification (Except.error e) = "general") := by
  refine ⟨?_, fun e => rfl⟩
  rw [categorize_query_eq_classify, classifyKeywords_def]
  split_ifs <;> simp

/-- Claim C3: keyword categories are tested in the fixed priority order
stock > news > portfolio > general, so a multi-category match resolves to
the earliest-listed one; in particular any query containing both "price"
and "news" (after lowercasing) classifies as "stock". -/
theorem categorize_query_priority (q : String) :
    (matchesStock q = true → categorize_query q = "stock") ∧
    (matchesStock q = false → matchesNews q = true → categorize_query q = "news") ∧
    (matchesStock q = false → matchesNews q = false → matchesPortfolio q = true →
      categorize_query q = "portfolio") ∧
    (strContainsSub (strLower q) "price" = true → strContainsSub (strLower q) "news" = true →
      categorize_query q = "stock") := by
  refine ⟨?_, ?_, ?_, ?_⟩
  · intro h
    rw [categorize_query_eq_classify, classifyKeywords_def]
    simp [h]
  · intro h1 h2
    rw [categorize_query_eq_classify, classifyKeywords_def]
    simp [h1, h2]
  · intro h1 h2 h3
    rw [categorize_query_eq_classify, classifyKeywords_def]
    simp [h1, h2, h3]
  · intro hp _
    have hmem : "price" ∈ stockKeywords := by simp [stockKeywords]
    have hs : matchesStock q = true := by
      unfold matchesStock
      rw [List.any_eq_true]
      exact ⟨"price", hmem, hp⟩
    rw [categorize_query_eq_classify, classifyKeywords_def]
    simp [hs]

/-- Witness for C3 at the concrete query "price news". -/
theorem categorize_query_priority_witness :
    categorize_query "price news" = "stock" :=
  (categorize_query_priority "price news").2.2.2 (by decide) (by decide)

/-- Claim C4: when no keyword of any category occurs in the lowercased
input the result is "general"; an internal classification fault also
yields "general"; and the empty string classifies as "general". -/
theorem categorize_query_fallback (q : String) :
    (matchesStock q = false → matchesNews q = false → matchesPortfolio q = false →
      categorize_query q = "general") ∧
    (∀ e : String, handleClassification (Except.error e) = "general") ∧
    categorize_query "" = "general" := by
  refine ⟨?_, fun e => rfl, rfl⟩
  intro h1 h2 h3
  rw [categorize_query_eq_classify, classifyKeywords_def]
  simp [h1, h2, h3]

/-- Witness for C4 at the concrete query "Hello". -/
theorem categorize_query_fallback_witness :
    categorize_query "Hello" = "general" :=
  (categorize_query_fallback "Hello").1 (by decide) (by decide) (by decide)

/-- Claim C8: keyword matching is bare substring containment on the
lowercased query, so any query whose lowercase form contains "low" or
"high" — even inside an unrelated word — classifies as "stock". -/
theorem keyword_substring_matching (q : String) :
    (strContainsSub (strLower q) "low" = true → categorize_query q = "stock") ∧
    (strContainsSub (strLower q) "high" = true → categorize_query q = "stock") ∧
    categorize_query "Can you follow up?" = "stock" ∧
    categorize_query "highlight this" = "stock" := by
  refine ⟨?_, ?_, by decide, by decide⟩
  · intro hc
    have hmem : "low" ∈ stockKeywords := by simp [stockKeywords]
    have hs : matchesStock q = true := by
      unfold matchesStock
      rw [List.any_eq_true]
      exact ⟨"low", hmem, hc⟩
    rw [categorize_query_eq_classify, classifyKeywords_def]
    simp [hs]
  · intro hc
    have hmem : "high" ∈ stockKeywords := by simp [stockKeywords]
    have hs : matchesStock q = true := by
      unfold matchesStock
      rw [List.any_eq_true]
      exact ⟨"high", hmem, hc⟩
    rw [categorize_query_eq_classify, classifyKeywords_def]
    simp [hs]

/-- Witness for C8 at the concrete query "Can you follow up?". -/
theorem keyword_substring_matching_witness :
    categorize_query "Can you follow up?" = "stock" :=
  (keyword_substring_matching "Can you follow up?").1 (by decide)

/-- Claim C9: `categorize_query` is a deterministic pure function of its
input — two invocations on the same string return the same category. -/
theorem categorize_query_deterministic (q c₁ c₂ : String)
    (h₁ : c₁ = categorize_query q) (h₂ : c₂ = categorize_query q) : c₁ = c₂ :=
  h₁.trans h₂.symm

/-- Witness for C9: two invocations on "Hello" agree. -/
theorem categorize_query_deterministic_witness :
    categorize_query "Hello" = categorize_query "Hello" :=
  categorize_query_deterministic "Hello" (categorize_query "Hello")
    (categorize_query "Hello") rfl rfl

/-- On a valid body the route runs the stub handler and makes no
classifier call. -/
theorem analyzeRoute_of_valid (q : String) (h : validateQuestion (some q) = []) :
    analyzeRoute (some q) =
      (AnalyzeHttpResult.success 200 (analyze { question := q }), []) := by
  simp only [analyzeRoute]
  rw [h]

/-- On an invalid body the route returns the 422 error built from the
violation list and makes no classifier call. -/
theorem analyzeRoute_of_invalid (q : String) (i : ValidationIssue)
    (rest : List ValidationIssue) (h : validateQuestion (some q) = i :: rest) :
    analyzeRoute (some q) = (validation_exception_handler (i :: rest), []) := by
  simp only [analyzeRoute]
  rw [h]

/-- Claim C5: a body without the question key, or a question of length 2
or 1001, is rejected with 422, an error body listing exactly the violated
constraint, and no classifier invocation; questions of length 3 and 1000
are accepted with 200. -/
theorem analyze_length_boundary :
    (analyzeRoute none =
      (AnalyzeHttpResult.failure 422
        { error := "validation_error", detail := [ValidationIssue.missing] }, [])) ∧
    (∀ q : String, q.length = 2 →
      analyzeRoute (some q) =
        (AnalyzeHttpResult.failure 422
          { error := "validation_error", detail := [ValidationIssue.tooShort] }, [])) ∧
    (∀ q : String, q.length = 1001 →
      analyzeRoute (some q) =
        (AnalyzeHttpResult.failure 422
          { error := "validation_error", detail := [ValidationIssue.tooLong] }, [])) ∧
    (∀ q : String, q.length = 3 → statusOf (analyzeRoute (some q)).1 = 200) ∧
    (∀ q : String, q.length = 1000 → statusOf (analyzeRoute (some q)).1 = 200) := by
  refine ⟨rfl, ?_, ?_, ?_, ?_⟩
  · intro q h
    have hv : validateQuestion (some q) = [ValidationIssue.tooShort] := by
      simp only [validateQuestion, h]
      decide
    rw [analyzeRoute_of_invalid q ValidationIssue.tooShort [] hv]
    rfl
  · intro q h
    have hv : validateQuestion (some q) = [ValidationIssue.tooLong] := by
      simp only [validateQuestion, h]
      decide
    rw [analyzeRoute_of_invalid q ValidationIssue.tooLong [] hv]
    rfl
  · intro q h
    have hv : validateQuestion (some q) = [] := by
      simp only [validateQuestion, h]
      decide
    rw [analyzeRoute_of_valid q hv]
    rfl
  · intro q h
    have hv : validateQuestion (some q) = [] := by
      simp only [validateQuestion, h]
      decide
    rw [analyzeRoute_of_valid q hv]
    rfl

/-- Witness for C5 at bodies of length 2, 1001, 3 and 1000. -/
theorem analyze_length_boundary_witness :
    analyzeRoute (some "ab") =
      (AnalyzeHttpResult.failure 422
        { error := "validation_error", detail := [ValidationIssue.tooShort] }, []) ∧
    analyzeRoute (some (String.mk (List.replicate 1001 'a'))) =
      (AnalyzeHttpResult.failure 422
        { error := "validation_error", detail := [ValidationIssue.tooLong] }, []) ∧
    statusOf (analyzeRoute (some "abc")).1 = 200 ∧
    statusOf (analyzeRoute (some (String.mk (List.replicate 1000 'a')))).1 = 200 :=
  ⟨analyze_length_boundary.2.1 "ab" (by decide),
   analyze_length_boundary.2.2.1 _ (by simp [String.length, List.length_replicate]),
   analyze_length_boundary.2.2.2.1 "abc" (by decide),
   analyze_length_boundary.2.2.2.2 _ (by simp [String.length, List.length_replicate])⟩

/-- Claim C7: every accepted question gets a 200 envelope with constant
category "general", the constant stub summary, data echoing the question,
and no confidence — independent of the question's content. -/
theorem analyze_stub_envelope (q : String) (h : validateQuestion (some q) = []) :
    analyzeRoute (some q) =
      (AnalyzeHttpResult.success 200
        { category := "general"
          summary := "[STUB] Analysis pipeline not yet connected."
          data := some [("question", q)]
          confidence := none }, []) := by
  rw [analyzeRoute_of_valid q h]
  rfl

/-- Witness for C7 at the concrete question "What is a stock?". -/
theorem analyze_stub_envelope_witness :
    analyzeRoute (some "What is a stock?") =
      (AnalyzeHttpResult.success 200
        { category := "general"
          summary := "[STUB] Analysis pipeline not yet connected."
          data := some [("question", "What is a stock?")]
          confidence := none }, []) :=
  analyze_stub_envelope "What is a stock?" (by decide)

/-- Claim C1 fails on the code: the question "What is the price of AAPL?"
passes validation and the Classifier maps it to "stock", yet the route's
response carries category "general" — the stub handler does not propagate
the Classifier's output. -/
theorem analyze_ignores_classifier_cex :
    validateQuestion (some "What is the price of AAPL?") = [] ∧
    categorize_query "What is the price of AAPL?" = "stock" ∧
    responseCategory (analyzeRoute (some "What is the price of AAPL?")).1 = some "general" ∧
    ¬ responseCategory (analyzeRoute (some "What is the price of AAPL?")).1 =
        some (categorize_query "What is the price of AAPL?") := by
  decide

/-- Claim C1 (amended): the handler never invokes the Classifier (its
call trace is empty) and returns the constant category "general" for every
validated question, so the response category coincides with the
Classifier's output exactly when the Classifier itself returns
"general". -/
theorem analyze_stub_category_general (q : String) (h : validateQuestion (some q) = []) :
    (analyzeRoute (some q)).2 = [] ∧
    responseCategory (analyzeRoute (some q)).1 = some "general" ∧
    (responseCategory (analyzeRoute (some q)).1 = some (categorize_query q) ↔
      categorize_query q = "general") := by
  rw [analyzeRoute_of_valid q h]
  refine ⟨rfl, rfl, ?_⟩
  simp [responseCategory, analyze, eq_comm]

/-- Witness for the amended C1 at the concrete question "Hi there". -/
theorem analyze_stub_category_general_witness :
    (analyzeRoute (some "Hi there")).2 = [] ∧
    responseCategory (analyzeRoute (some "Hi there")).1 = some "general" ∧
    (responseCategory (analyzeRoute (some "Hi there")).1 =
        some (categorize_query "Hi there") ↔
      categorize_query "Hi there" = "general") :=
  analyze_stub_category_general "Hi there" (by decide)

/-- Claim C6 fails on the code: the three-space question "   " is
whitespace-trivial, yet it passes validation (no stripping is performed;
its length is 3) and the route answers 200. -/
theorem whitespace_passes_validation_cex :
    ("   " : String).data.all Char.isWhitespace = true ∧
    validateQuestion (some "   ") = [] ∧
    statusOf (analyzeRoute (some "   ")).1 = 200 := by
  decide

/-- Claim C6 (amended): every question of length below 3 — including the
empty string — or above 1000 is rejected with 422 before classification,
and the Classifier receives no call; whitespace-trivial questions of
length at least 3, however, pass validation unstripped. -/
theorem validation_rejects_short_and_long (q : String)
    (h : q.length < 3 ∨ q.length > 1000) :
    statusOf (analyzeRoute (some q)).1 = 422 ∧ (analyzeRoute (some q)).2 = [] := by
  have hv : ∃ i rest, validateQuestion (some q) = i :: rest := by
    simp only [validateQuestion]
    rcases h with h | h
    · have hno : ¬ q.length > 1000 := by omega
      rw [if_pos h, if_neg hno]
      exact ⟨ValidationIssue.tooShort, [], rfl⟩
    · have h3 : ¬ q.length < 3 := by omega
      rw [if_neg h3, if_pos h]
      exact ⟨ValidationIssue.tooLong, [], rfl⟩
  obtain ⟨i, rest, hv⟩ := hv
  rw [analyzeRoute_of_invalid q i rest hv]
  exact ⟨rfl, rfl⟩

/-- Witness for the amended C6 at the empty question. -/
theorem validation_rejects_short_and_long_witness :
    statusOf (analyzeRoute (some "")).1 = 422 ∧ (analyzeRoute (some "")).2 = [] :=
  validation_rejects_short_and_long "" (Or.inl (by decide))

/-- Claim C10: GET /health always answers 200 with status "ok" and the
configured application display name, whatever the settings; with the
default configuration the name is "Financial Research AI". -/
theorem health_check_ok (s : Settings) :
    healthRoute s = (200, { status := "ok", app := s.app_name }) ∧
    healthRoute defaultSettings =
      (200, { status := "ok", app := "Financial Research AI" }) :=
  ⟨rfl, rfl⟩
